import Mathlib

/-
Verification development for the abm-civilization simulation core.

Shallow embedding of src/models/star.py, src/models/civilization.py and
src/models/universe.py.  Python floats are modelled as rationals (the spec
declares all numeric rules to be exact toy dynamics), Python dicts as
association lists with insertion-order semantics (first occurrence is the
dict entry; reachable states have unique keys), and Python object aliasing
is modelled by threading the updated objects through explicitly: a method
that mutates another civilization writes it back into the universe registry
before returning, which is exactly what reference aliasing achieves in the
source.  `random.random()` is modelled by an explicit stream `rng : ℕ → ℚ`
together with a cursor `n`; one draw is consumed per evaluated expansion
attempt, so the cursor also counts attempts.  Euclidean distance
(`np.linalg.norm`) is irrational-valued in general, so the development is
parametric in the distance function `dist`; every theorem below holds for
every choice of `dist` (with symmetry assumed where the source relies on
`norm (a - b) = norm (b - a)`).
-/

namespace ABM

/-- Python dict lookup `d.get(k)` / `d[k]`: value of the first entry with the
given key (Python dicts have unique keys, so the first entry is the entry). -/
def dictGet {α : Type} : List (String × α) → String → Option α
  | [], _ => none
  | p :: rest, k => if p.1 == k then some p.2 else dictGet rest k

/-- Python `k in d`. -/
def dictContains {α : Type} : List (String × α) → String → Bool
  | [], _ => false
  | p :: rest, k => p.1 == k || dictContains rest k

/-- Python `d[k] = v`: update the entry in place if the key is present,
otherwise append a new entry (insertion order preserved). -/
def dictSet {α : Type} : List (String × α) → String → α → List (String × α)
  | [], k, v => [(k, v)]
  | p :: rest, k, v => if p.1 == k then (k, v) :: rest else p :: dictSet rest k v

/-- Python `d.pop(k)` / `del d[k]`: remove the entry with the given key. -/
def dictPop {α : Type} : List (String × α) → String → List (String × α)
  | [], _ => []
  | p :: rest, k => if p.1 == k then rest else p :: dictPop rest k

/-- Python `list(d.keys())`. -/
def dictKeys {α : Type} (d : List (String × α)) : List String :=
  d.map (fun p => p.1)

/-- A value in an event payload (src logs strings and numbers). -/
inductive EventVal : Type
  | str (s : String)
  | num (q : ℚ)
deriving DecidableEq, Repr

/-- One history event: `{"date": date, "event": event_type, "data": data}`
(src/models/civilization.py `_add_to_history`). -/
structure Event : Type where
  date : ℚ
  event : String
  data : List (String × EventVal)
deriving DecidableEq, Repr

/-- A 3-D position (np 3-vector with rational coordinates). -/
abbrev Pos : Type := ℚ × ℚ × ℚ

/-- src/models/star.py `Star`. -/
structure Star : Type where
  id : String
  name : String
  position : Pos
  resources : ℚ
  planets : ℕ
  visiting_civilizations : List (String × ℚ)
deriving DecidableEq, Repr

/-- src/models/star.py `Star.distance_to`; `dist` stands for
`np.linalg.norm(self.position - other.position)`. -/
def Star.distance_to (dist : Pos → Pos → ℚ) (self other : Star) : ℚ :=
  dist self.position other.position

/-- src/models/star.py `Star.record_visit`: record a visit by a civilization
if not already recorded. -/
def Star.record_visit (self : Star) (civ_id : String) (date : ℚ) : Star :=
  if dictContains self.visiting_civilizations civ_id then self
  else { self with visiting_civilizations := self.visiting_civilizations ++ [(civ_id, date)] }

/-- src/models/star.py `Star.get_visiting_civilizations` (returns a copy;
with value semantics the copy is the value itself). -/
def Star.get_visiting_civilizations (self : Star) : List (String × ℚ) :=
  self.visiting_civilizations

/-- src/models/civilization.py `CivilizationParams`. -/
structure CivilizationParams : Type where
  id : String
  name : String
  origin_star : Star
  population : ℚ
  reproduction_rate : ℚ
  individual_lifespan : ℚ
  expansion_rate : ℚ
  expansion_range : ℚ
  cooperation_factor : ℚ
  aggression_factor : ℚ
  founding_date : ℚ
  tech_level : ℚ
  tech_advancement_rate : ℚ
  time_horizon : ℚ
  biological_type : String
  organization_type : String
  motivation : String
deriving DecidableEq, Repr

/-- src/models/civilization.py `Civilization` mutable state. -/
structure Civilization : Type where
  params : CivilizationParams
  visited_stars : List (String × ℚ)
  colonies : List (String × ℚ)
  history : List Event
  tech_history : List (ℚ × ℚ)
  population_history : List (ℚ × ℚ)
deriving DecidableEq, Repr

/-- src/models/universe.py `Universe` state (civilizations registry holds the
live civilization objects, as the Python dict of references does). -/
structure Universe : Type where
  stars : List (String × Star)
  civilizations : List (String × Civilization)
  current_date : ℚ
  size : ℚ
  history : List Event
deriving DecidableEq, Repr

/-- src/models/universe.py `Universe._add_to_history`. -/
def Universe.add_to_history (uni : Universe) (date : ℚ) (event_type : String)
    (data : List (String × EventVal)) : Universe :=
  { uni with history := uni.history ++ [{ date := date, event := event_type, data := data }] }

/-- src/models/universe.py `Universe.get_star`. -/
def Universe.get_star (uni : Universe) (star_id : String) : Option Star :=
  dictGet uni.stars star_id

/-- src/models/universe.py `Universe.get_civilization`. -/
def Universe.get_civilization (uni : Universe) (civ_id : String) : Option Civilization :=
  dictGet uni.civilizations civ_id

/-- src/models/universe.py `Universe.get_nearby_stars`: stars whose distance
to `position` is in (0, range_limit]. -/
def Universe.get_nearby_stars (dist : Pos → Pos → ℚ) (uni : Universe)
    (position : Pos) (range_limit : ℚ) : List Star :=
  (uni.stars.map (fun p => p.2)).filter
    (fun star => decide (dist star.position position ≤ range_limit)
      && decide (dist star.position position > 0))

/-- src/models/universe.py `Universe.remove_civilization`: delete the registry
entry if present and log a "civilization_extinct" event. -/
def Universe.remove_civilization (uni : Universe) (civ_id : String) : Universe :=
  match dictGet uni.civilizations civ_id with
  | none => uni
  | some civ =>
    let uni := { uni with civilizations := dictPop uni.civilizations civ_id }
    Universe.add_to_history uni uni.current_date "civilization_extinct"
      [("id", EventVal.str civ_id), ("name", EventVal.str civ.params.name),
       ("existed_for", EventVal.num (uni.current_date - civ.params.founding_date))]

/-- src/models/civilization.py `Civilization._add_to_history`. -/
def Civilization.add_to_history (self : Civilization) (date : ℚ) (event_type : String)
    (data : List (String × EventVal)) : Civilization :=
  { self with history := self.history ++ [{ date := date, event := event_type, data := data }] }

/-- src/models/civilization.py `Civilization.get_total_population`:
`sum(self.colonies.values())`. -/
def Civilization.get_total_population (self : Civilization) : ℚ :=
  (self.colonies.map (fun p => p.2)).sum

/-- src/models/civilization.py `Civilization.__init__`: builds the state and
mutates the origin star (returned alongside, standing for the aliased
object).  The source performs no validation of the parameters. -/
def Civilization.init (params : CivilizationParams) : Civilization × Star :=
  let visited_stars := [(params.origin_star.id, params.founding_date)]
  let colonies := dictSet ([] : List (String × ℚ)) params.origin_star.id params.population
  let origin_star := Star.record_visit params.origin_star params.id params.founding_date
  let civ : Civilization :=
    { params := params, visited_stars := visited_stars, colonies := colonies,
      history := [],
      tech_history := [(params.founding_date, params.tech_level)],
      population_history := [(params.founding_date, params.population)] }
  let civ := Civilization.add_to_history civ params.founding_date "founding"
    [("star", EventVal.str params.origin_star.id),
     ("tech_level", EventVal.num params.tech_level),
     ("population", EventVal.num params.population)]
  (civ, origin_star)

/-- Body of the loop in src/models/civilization.py `_update_population`
(lines 84-108): per colony, grow by the effective rate, clamp to carrying
capacity, and accumulate the total; a colony whose star is unknown is kept
unchanged and not counted. -/
def Civilization.update_colonies (uni : Universe) (params : CivilizationParams) :
    List (String × ℚ) → List (String × ℚ) × ℚ
  | [] => ([], 0)
  | (star_id, population) :: rest =>
    let r := Civilization.update_colonies uni params rest
    match Universe.get_star uni star_id with
    | none => ((star_id, population) :: r.1, r.2)
    | some star =>
      let growth_rate := params.reproduction_rate - 1 / params.individual_lifespan
      let effective_growth_rate := growth_rate * star.resources
      let new_population := population * (1 + effective_growth_rate)
      let carrying_capacity := star.resources * 1000000000 * (star.planets : ℚ)
      let new_population :=
        if new_population > carrying_capacity then carrying_capacity else new_population
      ((star_id, new_population) :: r.1, r.2 + new_population)

/-- src/models/civilization.py `Civilization._update_population`. -/
def Civilization.update_population (self : Civilization) (current_date : ℚ)
    (uni : Universe) : Civilization :=
  let r := Civilization.update_colonies uni self.params self.colonies
  let params := { self.params with population := r.2 }
  { self with colonies := r.1, params := params, population_history := self.population_history ++ [(current_date, r.2)] }

/-- src/models/civilization.py `Civilization._update_technology`. -/
def Civilization.update_technology (self : Civilization) (current_date : ℚ) : Civilization :=
  let new_tech_level := self.params.tech_level * (1 + self.params.tech_advancement_rate)
  let new_tech_level :=
    if self.params.motivation == "knowledge" then new_tech_level * (6 / 5) else new_tech_level
  let params := { self.params with tech_level := new_tech_level }
  { self with params := params, tech_history := self.tech_history ++ [(current_date, new_tech_level)] }

/-- Success branch of an expansion attempt, src/models/civilization.py lines
189-210: mark the star visited (civilization map and the star's own
idempotent visit record), transfer 10% of the origin colony's population
(`colonies.get(origin, 0)`), and log the "expansion" event. -/
def Civilization.apply_expansion_success (current_date : ℚ) (origin_star_id : String)
    (star : Star) (distance : ℚ) (self : Civilization) (uni : Universe) :
    Civilization × Universe :=
  let self := { self with visited_stars := dictSet self.visited_stars star.id current_date }
  let uni := { uni with stars := dictSet uni.stars star.id (Star.record_visit star self.params.id current_date) }
  let origin_population := (dictGet self.colonies origin_star_id).getD 0
  let colony_size := origin_population * (1 / 10)
  let self := { self with colonies := dictSet self.colonies origin_star_id (origin_population - colony_size) }
  let self := { self with colonies := dictSet self.colonies star.id colony_size }
  let self := Civilization.add_to_history self current_date "expansion"
    [("from_star", EventVal.str origin_star_id), ("to_star", EventVal.str star.id),
     ("distance", EventVal.num distance), ("colony_size", EventVal.num colony_size)]
  (self, uni)

/-- Success probability of one expansion attempt, src/models/civilization.py
lines 169-186: base rate scaled by remaining range and the candidate's
resources, then adjusted for the motivation category. -/
def Civilization.expansion_probability (params : CivilizationParams) (star : Star)
    (distance : ℚ) : ℚ :=
  let probability := params.expansion_rate *
    (1 - distance / (params.expansion_range * params.tech_level))
  let probability := probability * star.resources
  if params.motivation == "expansion" then probability * (3 / 2)
  else if params.motivation == "seeding" then probability * (13 / 10)
  else if params.motivation == "resource" then
    if star.resources < 3 / 5 then probability * (1 / 5) else probability
  else probability

/-- Inner candidate loop of `_expand_to_new_stars` (lines 161-214).  Returns
the updated civilization and universe, the random cursor, and whether the
multiple-of-10 rate limit fired (the `return`).  One random draw is consumed
per candidate within range, so the cursor counts evaluated attempts. -/
def Civilization.expand_candidates (dist : Pos → Pos → ℚ) (rng : ℕ → ℚ)
    (current_date : ℚ) (origin_star : Star) (origin_star_id : String) :
    List Star → Civilization → Universe → ℕ → Civilization × Universe × ℕ × Bool
  | [], self, uni, n => (self, uni, n, false)
  | star :: rest, self, uni, n =>
    let distance := Star.distance_to dist origin_star star
    if distance > self.params.expansion_range * self.params.tech_level then
      Civilization.expand_candidates dist rng current_date origin_star origin_star_id
        rest self uni n
    else
      if rng n < Civilization.expansion_probability self.params star distance then
        let r := Civilization.apply_expansion_success current_date origin_star_id star
          distance self uni
        if r.1.visited_stars.length % 10 == 0 then (r.1, r.2, n + 1, true)
        else Civilization.expand_candidates dist rng current_date origin_star origin_star_id
          rest r.1 r.2 (n + 1)
      else
        Civilization.expand_candidates dist rng current_date origin_star origin_star_id
          rest self uni (n + 1)

/-- Outer loop of `_expand_to_new_stars` over the snapshot of visited star
ids (lines 140-214): resolve the origin star (silent skip on a miss), query
nearby stars, filter out already-visited ones, and run the candidate loop;
a fired rate limit aborts the remaining origins. -/
def Civilization.expand_origins (dist : Pos → Pos → ℚ) (rng : ℕ → ℚ) (current_date : ℚ) :
    List String → Civilization → Universe → ℕ → Civilization × Universe × ℕ
  | [], self, uni, n => (self, uni, n)
  | origin_star_id :: rest, self, uni, n =>
    match Universe.get_star uni origin_star_id with
    | none => Civilization.expand_origins dist rng current_date rest self uni n
    | some origin_star =>
      let candidate_stars := Universe.get_nearby_stars dist uni origin_star.position
        (self.params.expansion_range * self.params.tech_level)
      let candidate_stars :=
        candidate_stars.filter (fun s => !dictContains self.visited_stars s.id)
      let r := Civilization.expand_candidates dist rng current_date origin_star
        origin_star_id candidate_stars self uni n
      if r.2.2.2 then (r.1, r.2.1, r.2.2.1)
      else Civilization.expand_origins dist rng current_date rest r.1 r.2.1 r.2.2.1

/-- src/models/civilization.py `Civilization._expand_to_new_stars`: skipped
entirely until 10 ticks after founding. -/
def Civilization.expand_to_new_stars (dist : Pos → Pos → ℚ) (rng : ℕ → ℚ)
    (self : Civilization) (current_date : ℚ) (uni : Universe) (n : ℕ) :
    Civilization × Universe × ℕ :=
  if current_date - self.params.founding_date < 10 then (self, uni, n)
  else Civilization.expand_origins dist rng current_date
    (self.visited_stars.map (fun p => p.1)) self uni n

/-- src/models/civilization.py `Civilization._peaceful_interaction`: absorb a
tech boost from a strictly more advanced co-located civilization; no effect
otherwise.  Only the initiator is ever mutated. -/
def Civilization.peaceful_interaction (current_date : ℚ) (self other : Civilization)
    (star : Star) : Civilization :=
  if other.params.tech_level > self.params.tech_level then
    let tech_boost := (other.params.tech_level - self.params.tech_level) *
      self.params.cooperation_factor * (1 / 10)
    let params := { self.params with tech_level := self.params.tech_level + tech_boost }
    let self := { self with params := params }
    Civilization.add_to_history self current_date "tech_exchange"
      [("with_civilization", EventVal.str other.params.id),
       ("at_star", EventVal.str star.id), ("tech_boost", EventVal.num tech_boost)]
  else self

/-- src/models/civilization.py `Civilization._hostile_interaction` (lines
279-354).  Returns the updated initiator, the updated other civilization
(the aliased object), and the universe with the other civilization written
back into the registry and extinct civilizations removed.  The call site
guarantees both sides have a colony entry at the star. -/
def Civilization.hostile_interaction (current_date : ℚ) (self other : Civilization)
    (star : Star) (uni : Universe) : Civilization × Civilization × Universe :=
  let our_population := (dictGet self.colonies star.id).getD 0
  let their_population := (dictGet other.colonies star.id).getD 0
  let our_strength := our_population * self.params.tech_level
  let their_strength := their_population * other.params.tech_level
  let our_effective_strength := our_strength * self.params.aggression_factor
  let their_effective_strength := their_strength * other.params.aggression_factor
  if our_effective_strength > their_effective_strength then
    let captured_population := their_population * (1 / 2)
    let self := { self with colonies := dictSet self.colonies star.id ((dictGet self.colonies star.id).getD 0 + captured_population) }
    let other := { other with colonies := dictSet other.colonies star.id ((dictGet other.colonies star.id).getD 0 - captured_population) }
    let self := Civilization.add_to_history self current_date "conflict_won"
      [("against_civilization", EventVal.str other.params.id),
       ("at_star", EventVal.str star.id),
       ("captured_population", EventVal.num captured_population)]
    if (dictGet other.colonies star.id).getD 0 ≤ 100 then
      let other := { other with colonies := dictPop other.colonies star.id }
      if other.colonies.isEmpty then
        let uni := Universe.remove_civilization
          { uni with civilizations := dictSet uni.civilizations other.params.id other }
          other.params.id
        let self := Civilization.add_to_history self current_date "extinction_caused"
          [("civilization", EventVal.str other.params.id)]
        (self, other, uni)
      else
        (self, other,
         { uni with civilizations := dictSet uni.civilizations other.params.id other })
    else
      (self, other,
       { uni with civilizations := dictSet uni.civilizations other.params.id other })
  else
    let lost_population := our_population * (1 / 2)
    let other := { other with colonies := dictSet other.colonies star.id ((dictGet other.colonies star.id).getD 0 + lost_population) }
    let self := { self with colonies := dictSet self.colonies star.id ((dictGet self.colonies star.id).getD 0 - lost_population) }
    let self := Civilization.add_to_history self current_date "conflict_lost"
      [("against_civilization", EventVal.str other.params.id),
       ("at_star", EventVal.str star.id),
       ("lost_population", EventVal.num lost_population)]
    if (dictGet self.colonies star.id).getD 0 ≤ 100 then
      let self := { self with colonies := dictPop self.colonies star.id }
      if self.colonies.isEmpty then
        let uni := Universe.remove_civilization
          { uni with civilizations := dictSet uni.civilizations other.params.id other }
          self.params.id
        let self := Civilization.add_to_history self current_date "extinction"
          [("caused_by", EventVal.str other.params.id)]
        (self, other, uni)
      else
        (self, other,
         { uni with civilizations := dictSet uni.civilizations other.params.id other })
    else
      (self, other,
       { uni with civilizations := dictSet uni.civilizations other.params.id other })

/-- One visitor of the interaction loop, src/models/civilization.py lines
238-253: resolve the other civilization (silent skip on a miss), require
both sides to hold a live colony at the star, then dispatch on
cooperation vs aggression. -/
def Civilization.interact_pair (current_date : ℚ) (self : Civilization)
    (other_civ_id : String) (star : Star) (uni : Universe) : Civilization × Universe :=
  match Universe.get_civilization uni other_civ_id with
  | none => (self, uni)
  | some other_civ =>
    if !dictContains other_civ.colonies star.id || !dictContains self.colonies star.id then
      (self, uni)
    else if self.params.cooperation_factor > self.params.aggression_factor then
      (Civilization.peaceful_interaction current_date self other_civ star, uni)
    else
      let r := Civilization.hostile_interaction current_date self other_civ star uni
      (r.1, r.2.2)

/-- Loop over the visitors of one star (lines 238-253). -/
def Civilization.interact_visitors (current_date : ℚ) (star : Star) :
    List String → Civilization → Universe → Civilization × Universe
  | [], self, uni => (self, uni)
  | other_civ_id :: rest, self, uni =>
    let r := Civilization.interact_pair current_date self other_civ_id star uni
    Civilization.interact_visitors current_date star rest r.1 r.2

/-- Loop over the visited stars (lines 221-253): fetch the star (silent skip
on a miss), remove self from its visitor map, and interact with each
remaining visitor in order. -/
def Civilization.interact_stars (current_date : ℚ) :
    List String → Civilization → Universe → Civilization × Universe
  | [], self, uni => (self, uni)
  | star_id :: rest, self, uni =>
    match Universe.get_star uni star_id with
    | none => Civilization.interact_stars current_date rest self uni
    | some star =>
      let visitors := dictPop (Star.get_visiting_civilizations star) self.params.id
      let r := Civilization.interact_visitors current_date star
        (visitors.map (fun p => p.1)) self uni
      Civilization.interact_stars current_date rest r.1 r.2

/-- src/models/civilization.py `Civilization._interact_with_other_civilizations`. -/
def Civilization.interact_with_other_civilizations (self : Civilization)
    (current_date : ℚ) (uni : Universe) : Civilization × Universe :=
  Civilization.interact_stars current_date (self.visited_stars.map (fun p => p.1)) self uni

/-- src/models/civilization.py `Civilization.update`: the four ordered
phases of one tick of one civilization. -/
def Civilization.update (dist : Pos → Pos → ℚ) (rng : ℕ → ℚ) (self : Civilization)
    (current_date : ℚ) (uni : Universe) (n : ℕ) : Civilization × Universe × ℕ :=
  let self := Civilization.update_population self current_date uni
  let self := Civilization.update_technology self current_date
  let r := Civilization.expand_to_new_stars dist rng self current_date uni n
  let r2 := Civilization.interact_with_other_civilizations r.1 current_date r.2.1
  (r2.1, r2.2, r.2.2)

/-- Shared star "S" with both "A" and "B" recorded as visitors. -/
def starS : Star :=
  { id := "S", name := "Star-S", position := (0, 0, 0), resources := 1, planets := 1,
    visiting_civilizations := [("A", 0), ("B", 0)] }

/-- Baseline parameter record for concrete scenarios (hostile: cooperation 0,
aggression 1; reproduction exactly balances lifespan so growth is 0). -/
def baseParams : CivilizationParams :=
  { id := "A", name := "Alpha", origin_star := starS, population := 1000,
    reproduction_rate := 1, individual_lifespan := 1, expansion_rate := 1 / 2,
    expansion_range := 1, cooperation_factor := 0, aggression_factor := 1,
    founding_date := 0, tech_level := 1, tech_advancement_rate := 0,
    time_horizon := 100, biological_type := "biological",
    organization_type := "individual", motivation := "expansion" }

/-- Hostile initiator holding 1000 population at "S". -/
def civA : Civilization :=
  { params := baseParams, visited_stars := [("S", 0)], colonies := [("S", 1000)],
    history := [], tech_history := [(0, 1)], population_history := [(0, 1000)] }

/-- Weak defender with 150 at "S" and a second colony at "T". -/
def civBmass : Civilization :=
  { params := { baseParams with id := "B", name := "Beta", aggression_factor := 0 },
    visited_stars := [("S", 0), ("T", 0)], colonies := [("S", 150), ("T", 500)],
    history := [], tech_history := [(0, 1)], population_history := [(0, 650)] }

/-- Weak defender whose only colony is 150 at "S". -/
def civBext : Civilization :=
  { params := { baseParams with id := "B", name := "Beta", aggression_factor := 0 },
    visited_stars := [("S", 0)], colonies := [("S", 150)],
    history := [], tech_history := [(0, 1)], population_history := [(0, 150)] }

/-- Defender with 1000 at "S" and aggression 1/2 (loses, survives). -/
def civB4 : Civilization :=
  { params := { baseParams with id := "B", name := "Beta", aggression_factor := 1 / 2 },
    visited_stars := [("S", 0)], colonies := [("S", 1000)],
    history := [], tech_history := [(0, 1)], population_history := [(0, 1000)] }

def uniMass : Universe :=
  { stars := [("S", starS)], civilizations := [("A", civA), ("B", civBmass)],
    current_date := 1, size := 1000, history := [] }

def uniExt : Universe :=
  { stars := [("S", starS)], civilizations := [("A", civA), ("B", civBext)],
    current_date := 1, size := 1000, history := [] }

def uniC4 : Universe :=
  { stars := [("S", starS)], civilizations := [("A", civA), ("B", civB4)],
    current_date := 1, size := 1000, history := [] }

/-- Parameter record that violates the configuration constraints: lifespan 0
(non-positive) and cooperation factor 2 (outside the 0-1 scale). -/
def badParams : CivilizationParams :=
  { baseParams with id := "X", individual_lifespan := 0, cooperation_factor := 2, population := 100 }

/-- Star for the carrying-capacity witness. -/
def starW : Star :=
  { id := "W", name := "Star-W", position := (0, 0, 0), resources := 1, planets := 1,
    visiting_civilizations := [("C", 0)] }

def uniW : Universe :=
  { stars := [("W", starW)], civilizations := [], current_date := 1, size := 1000,
    history := [] }

/-- Civilization whose growth overshoots the carrying capacity at "W". -/
def civW : Civilization :=
  { params := { baseParams with id := "C", reproduction_rate := 2 },
    visited_stars := [("W", 0)], colonies := [("W", 2000000000)],
    history := [], tech_history := [(0, 1)], population_history := [(0, 2000000000)] }

/-- Star for the tech-exchange witness, visited by "L" and "H". -/
def starP : Star :=
  { id := "P", name := "Star-P", position := (0, 0, 0), resources := 1, planets := 1,
    visiting_civilizations := [("L", 0), ("H", 0)] }

/-- Cooperative low-tech civilization (the spec scenario: cooperation 0.8,
aggression 0.2). -/
def civL : Civilization :=
  { params := { baseParams with id := "L", cooperation_factor := 4 / 5, aggression_factor := 1 / 5 },
    visited_stars := [("P", 0)], colonies := [("P", 100)],
    history := [], tech_history := [(0, 1)], population_history := [(0, 100)] }

/-- Higher-tech partner at the same star. -/
def civH : Civilization :=
  { params := { baseParams with id := "H", tech_level := 2 },
    visited_stars := [("P", 0)], colonies := [("P", 100)],
    history := [], tech_history := [(0, 2)], population_history := [(0, 100)] }

def uniP : Universe :=
  { stars := [("P", starP)], civilizations := [("L", civL), ("H", civH)],
    current_date := 1, size := 1000, history := [] }

/-- Origin star of the expansion scenario. -/
def starE0 : Star :=
  { id := "s0", name := "Star-0", position := (0, 0, 0), resources := 1, planets := 1,
    visiting_civilizations := [("R", 0)] }

/-- Unvisited candidate star. -/
def starE1 : Star :=
  { id := "s1", name := "Star-1", position := (3, 0, 0), resources := 1, planets := 1,
    visiting_civilizations := [] }

def uniE : Universe :=
  { stars := [("s0", starE0), ("s1", starE1)], civilizations := [],
    current_date := 20, size := 1000, history := [] }

/-- Established civilization at "s0" with effective expansion range 5. -/
def civR : Civilization :=
  { params := { baseParams with id := "R", tech_level := 5 },
    visited_stars := [("s0", 0)], colonies := [("s0", 1000)],
    history := [], tech_history := [(0, 5)], population_history := [(0, 1000)] }

/-- Civilization whose visited origin "s0" has no colony entry. -/
def civTen : Civilization :=
  { params := { baseParams with id := "T2" },
    visited_stars := [("s0", 0)], colonies := [],
    history := [], tech_history := [(0, 1)], population_history := [(0, 0)] }

/-- Constant distance oracle (trivially symmetric). -/
def distC : Pos → Pos → ℚ := fun _ _ => 3

/-- Random stream that always draws 1 (every expansion attempt fails). -/
def rngC : ℕ → ℚ := fun _ => 1

/-- Defender with state identical in strength to `civA` (exact tie). -/
def civTie : Civilization :=
  { params := { baseParams with id := "B", name := "Beta" },
    visited_stars := [("S", 0)], colonies := [("S", 1000)],
    history := [], tech_history := [(0, 1)], population_history := [(0, 1000)] }

def uniTie : Universe :=
  { stars := [("S", starS)], civilizations := [("A", civA), ("B", civTie)],
    current_date := 1, size := 1000, history := [] }

/-- Preservation predicate: every dict entry of `orig` is still present, with
the same value, in `cur`. -/
def Preserves (orig cur : List (String × ℚ)) : Prop :=
  ∀ k v, dictGet orig k = some v → dictGet cur k = some v

end ABM

namespace ABM

theorem dictGet_dictSet_self {α : Type} (d : List (String × α)) (k : String) (v : α) :
    dictGet (dictSet d k v) k = some v := by
  induction d with
  | nil => simp [dictGet, dictSet]
  | cons p rest ih =>
    by_cases h : p.1 = k
    · simp [dictGet, dictSet, h]
    · simp [dictGet, dictSet, h, ih]

theorem dictGet_dictSet_ne {α : Type} (d : List (String × α)) {k k' : String}
    (h : k' ≠ k) (v : α) : dictGet (dictSet d k v) k' = dictGet d k' := by
  induction d with
  | nil => simp [dictGet, dictSet, Ne.symm h]
  | cons p rest ih =>
    by_cases hp : p.1 = k
    · simp [dictGet, dictSet, hp, Ne.symm h]
    · by_cases hp' : p.1 = k'
      · simp [dictGet, dictSet, hp, hp', h]
      · simp [dictGet, dictSet, hp, hp', ih]

theorem dictContains_eq_true_iff {α : Type} (d : List (String × α)) (k : String) :
    dictContains d k = true ↔ k ∈ dictKeys d := by
  induction d with
  | nil => simp [dictContains, dictKeys]
  | cons p rest ih =>
    simp only [dictContains, Bool.or_eq_true, beq_iff_eq, ih, dictKeys, List.map_cons,
      List.mem_cons]
    exact or_congr ⟨Eq.symm, Eq.symm⟩ Iff.rfl

theorem dictGet_eq_none_of_not_mem {α : Type} {d : List (String × α)} {k : String}
    (h : k ∉ dictKeys d) : dictGet d k = none := by
  induction d with
  | nil => rfl
  | cons p rest ih =>
    rw [show dictKeys (p :: rest) = p.1 :: dictKeys rest from rfl, List.mem_cons,
      not_or] at h
    have h1 : ¬ p.1 = k := fun hh => h.1 hh.symm
    simp [dictGet, h1, ih h.2]

theorem dictContains_of_dictGet {α : Type} {d : List (String × α)} {k : String}
    {v : α} (h : dictGet d k = some v) : dictContains d k = true := by
  induction d with
  | nil => simp [dictGet] at h
  | cons p rest ih =>
    by_cases hp : p.1 = k
    · simp [dictContains, hp]
    · simp [dictGet, hp] at h
      simp [dictContains, hp, ih h]

theorem dictGet_isSome_of_contains {α : Type} {d : List (String × α)} {k : String}
    (h : dictContains d k = true) : ∃ v, dictGet d k = some v := by
  induction d with
  | nil => simp [dictContains] at h
  | cons p rest ih =>
    by_cases hp : p.1 = k
    · exact ⟨p.2, by simp [dictGet, hp]⟩
    · simp [dictContains, hp] at h
      obtain ⟨v, hv⟩ := ih h
      exact ⟨v, by simp [dictGet, hp, hv]⟩

theorem dictPop_dictSet {α : Type} (d : List (String × α)) (k : String) (v : α) :
    dictPop (dictSet d k v) k = dictPop d k := by
  induction d with
  | nil => simp [dictPop, dictSet]
  | cons p rest ih =>
    by_cases hp : p.1 = k
    · simp [dictPop, dictSet, hp]
    · simp [dictPop, dictSet, hp, ih]

theorem dictKeys_dictSet_of_contains {α : Type} (d : List (String × α)) (k : String)
    (v : α) (h : dictContains d k = true) : dictKeys (dictSet d k v) = dictKeys d := by
  induction d with
  | nil => simp [dictContains] at h
  | cons p rest ih =>
    by_cases hp : p.1 = k
    · simp [dictKeys, dictSet, hp]
    · simp only [dictContains, Bool.or_eq_true, beq_iff_eq] at h
      have h2 : dictContains rest k = true := h.resolve_left hp
      have := ih h2
      simp only [dictKeys, List.map_cons] at this ⊢
      simp [dictSet, hp, this]

theorem dictKeys_dictSet_of_not_contains {α : Type} (d : List (String × α)) (k : String)
    (v : α) (h : dictContains d k = false) :
    dictKeys (dictSet d k v) = dictKeys d ++ [k] := by
  induction d with
  | nil => simp [dictKeys, dictSet]
  | cons p rest ih =>
    by_cases hp : p.1 = k
    · simp [dictContains, hp] at h
    · cases hb : dictContains rest k with
      | true => simp [dictContains, hp, hb] at h
      | false =>
        have := ih hb
        simp only [dictKeys, List.map_cons] at this ⊢
        simp [dictSet, hp, this]

theorem nodup_keys_dictSet {α : Type} (d : List (String × α)) (k : String) (v : α)
    (h : (dictKeys d).Nodup) : (dictKeys (dictSet d k v)).Nodup := by
  cases hb : dictContains d k with
  | true => rw [dictKeys_dictSet_of_contains d k v hb]; exact h
  | false =>
    rw [dictKeys_dictSet_of_not_contains d k v hb]
    have hk : k ∉ dictKeys d := by
      intro hm
      rw [(dictContains_eq_true_iff d k).mpr hm] at hb
      exact Bool.noConfusion hb
    rw [List.nodup_append]
    exact ⟨h, List.nodup_singleton k, by simp [List.disjoint_singleton, hk]⟩

theorem dictGet_dictPop_self {α : Type} {d : List (String × α)} (k : String)
    (h : (dictKeys d).Nodup) : dictGet (dictPop d k) k = none := by
  induction d with
  | nil => rfl
  | cons p rest ih =>
    rw [show dictKeys (p :: rest) = p.1 :: dictKeys rest from rfl,
      List.nodup_cons] at h
    by_cases hp : p.1 = k
    · have hr : dictPop (p :: rest) k = rest := by simp [dictPop, hp]
      rw [hr]
      exact dictGet_eq_none_of_not_mem (hp ▸ h.1)
    · simp [dictPop, dictGet, hp, ih h.2]

unseal Rat.add Rat.mul Rat.inv Rat.sub Nat.gcd in
/-- C5: the claim asks construction to fail fast on a non-positive lifespan or
an out-of-range factor; the source constructor performs no validation at all,
so a fully formed civilization state is created from invalid parameters
(lifespan 0, cooperation factor 2). -/
theorem init_accepts_invalid_params :
    (Civilization.init badParams).1.params.individual_lifespan = 0
    ∧ (Civilization.init badParams).1.params.cooperation_factor = 2
    ∧ (Civilization.init badParams).1.colonies = [("S", 100)]
    ∧ (Civilization.init badParams).1.history.length = 1 := by
  decide

unseal Rat.add Rat.mul Rat.inv Rat.sub Nat.gcd in
/-- C1 counterexample: initiator `civA` (strength 1000) defeats `civBmass`
(150 at "S", aggression 0).  The transfer captures 75 = 50% of 150, but the
loser's remaining 75 is at most 100, so its colony entry at "S" is removed:
the combined local population at "S" drops from 1150 to 1075, contradicting
the claim that the before/after sums differ by zero. -/
theorem conflict_sum_not_conserved :
    (dictGet civA.colonies "S").getD 0 + (dictGet civBmass.colonies "S").getD 0 = 1150
    ∧ (dictGet (Civilization.hostile_interaction 1 civA civBmass starS uniMass).1.colonies "S").getD 0 = 1075
    ∧ (dictGet (Civilization.hostile_interaction 1 civA civBmass starS uniMass).2.1.colonies "S").getD 0 = 0
    ∧ ((1075 : ℚ) + 0 ≠ 1150) := by
  decide

unseal Rat.add Rat.mul Rat.inv Rat.sub Nat.gcd in
/-- C3 counterexample: initiator `civA` annihilates `civBext` (only colony:
150 at "S").  The loser is removed from the registry, the winner logs
"extinction_caused", but no "extinction" event is ever appended to the
loser's history, contradicting the claim that both events are logged in
every such conflict. -/
theorem extinction_event_not_logged_on_loser :
    (Civilization.hostile_interaction 1 civA civBext starS uniExt).2.1.colonies = []
    ∧ dictGet (Civilization.hostile_interaction 1 civA civBext starS uniExt).2.2.civilizations "B" = none
    ∧ (Civilization.hostile_interaction 1 civA civBext starS uniExt).2.1.history.countP
        (fun e => e.event == "extinction") = 0
    ∧ (Civilization.hostile_interaction 1 civA civBext starS uniExt).1.history.countP
        (fun e => e.event == "extinction_caused") = 1 := by
  decide

/-- C2: in the hostile resolution the initiator takes the winner path exactly
when its effective strength (local population × tech level × aggression
factor) is strictly greater than the other side's, and the loser path
otherwise; in particular on an exact tie the initiator logs "conflict_lost",
so ties resolve in favor of the non-initiating side. -/
theorem conflict_strict_win_tie_loses (current_date : ℚ) (self other : Civilization)
    (star : Star) (uni : Universe) :
    ((Civilization.hostile_interaction current_date self other star uni).1.history.countP
        (fun e => e.event == "conflict_won")
      = self.history.countP (fun e => e.event == "conflict_won")
        + (if (dictGet self.colonies star.id).getD 0 * self.params.tech_level *
              self.params.aggression_factor >
              (dictGet other.colonies star.id).getD 0 * other.params.tech_level *
              other.params.aggression_factor then 1 else 0))
    ∧ ((Civilization.hostile_interaction current_date self other star uni).1.history.countP
        (fun e => e.event == "conflict_lost")
      = self.history.countP (fun e => e.event == "conflict_lost")
        + (if (dictGet self.colonies star.id).getD 0 * self.params.tech_level *
              self.params.aggression_factor >
              (dictGet other.colonies star.id).getD 0 * other.params.tech_level *
              other.params.aggression_factor then 0 else 1))
    ∧ ((dictGet self.colonies star.id).getD 0 * self.params.tech_level *
          self.params.aggression_factor =
          (dictGet other.colonies star.id).getD 0 * other.params.tech_level *
          other.params.aggression_factor →
        (Civilization.hostile_interaction current_date self other star uni).1.history.countP
          (fun e => e.event == "conflict_lost")
        = self.history.countP (fun e => e.event == "conflict_lost") + 1) := by
  refine ⟨?_, ?_, ?_⟩
  · simp only [Civilization.hostile_interaction, Civilization.add_to_history]
    split_ifs <;> simp [List.countP_append, List.countP_cons]
  · simp only [Civilization.hostile_interaction, Civilization.add_to_history]
    split_ifs <;> simp [List.countP_append, List.countP_cons]
  · intro heq
    have hng : ¬ ((dictGet self.colonies star.id).getD 0 * self.params.tech_level *
        self.params.aggression_factor >
        (dictGet other.colonies star.id).getD 0 * other.params.tech_level *
        other.params.aggression_factor) := by
      rw [heq]
      exact lt_irrefl _
    simp only [Civilization.hostile_interaction, Civilization.add_to_history]
    rw [if_neg hng]
    split_ifs <;> simp [List.countP_append, List.countP_cons]

unseal Rat.add Rat.mul Rat.inv Rat.sub Nat.gcd in
/-- C2 witness: on the exact tie between `civA` and `civTie` (both effective
strength 1000) the initiator logs "conflict_lost". -/
theorem conflict_strict_win_tie_loses_witness :
    (Civilization.hostile_interaction 1 civA civTie starS uniTie).1.history.countP
      (fun e => e.event == "conflict_lost")
    = civA.history.countP (fun e => e.event == "conflict_lost") + 1 :=
  (conflict_strict_win_tie_loses 1 civA civTie starS uniTie).2.2 (by decide)

/-- C1 (amended): the amount transferred in a hostile interaction is exactly
50% of the loser's pre-conflict local population at the star, the winner's
local population increases by that amount, and — whenever the loser's
post-transfer population exceeds the minimum viable 100 — the loser keeps
exactly the other half and the sum of both sides' local populations at that
star is conserved.  (When the remainder is ≤ 100 the loser's colony entry is
removed and the remainder is discarded, see the counterexample.) -/
theorem conflict_transfer_conservation (current_date : ℚ) (self other : Civilization)
    (star : Star) (uni : Universe)
    (hs : dictContains self.colonies star.id = true)
    (ho : dictContains other.colonies star.id = true) :
    ((dictGet self.colonies star.id).getD 0 * self.params.tech_level *
        self.params.aggression_factor >
        (dictGet other.colonies star.id).getD 0 * other.params.tech_level *
        other.params.aggression_factor →
      (dictGet (Civilization.hostile_interaction current_date self other star uni).1.colonies
          star.id).getD 0
        = (dictGet self.colonies star.id).getD 0 + (dictGet other.colonies star.id).getD 0 * (1 / 2)
      ∧ (100 < (dictGet other.colonies star.id).getD 0 -
            (dictGet other.colonies star.id).getD 0 * (1 / 2) →
          (dictGet (Civilization.hostile_interaction current_date self other star uni).2.1.colonies
              star.id).getD 0
            = (dictGet other.colonies star.id).getD 0 -
              (dictGet other.colonies star.id).getD 0 * (1 / 2)
          ∧ (dictGet (Civilization.hostile_interaction current_date self other star uni).1.colonies
                star.id).getD 0 +
              (dictGet (Civilization.hostile_interaction current_date self other star uni).2.1.colonies
                star.id).getD 0
            = (dictGet self.colonies star.id).getD 0 + (dictGet other.colonies star.id).getD 0))
    ∧ (¬ ((dictGet self.colonies star.id).getD 0 * self.params.tech_level *
        self.params.aggression_factor >
        (dictGet other.colonies star.id).getD 0 * other.params.tech_level *
        other.params.aggression_factor) →
      (dictGet (Civilization.hostile_interaction current_date self other star uni).2.1.colonies
          star.id).getD 0
        = (dictGet other.colonies star.id).getD 0 + (dictGet self.colonies star.id).getD 0 * (1 / 2)
      ∧ (100 < (dictGet self.colonies star.id).getD 0 -
            (dictGet self.colonies star.id).getD 0 * (1 / 2) →
          (dictGet (Civilization.hostile_interaction current_date self other star uni).1.colonies
              star.id).getD 0
            = (dictGet self.colonies star.id).getD 0 -
              (dictGet self.colonies star.id).getD 0 * (1 / 2)
          ∧ (dictGet (Civilization.hostile_interaction current_date self other star uni).1.colonies
                star.id).getD 0 +
              (dictGet (Civilization.hostile_interaction current_date self other star uni).2.1.colonies
                star.id).getD 0
            = (dictGet self.colonies star.id).getD 0 + (dictGet other.colonies star.id).getD 0)) := by
  constructor
  · intro hgt
    simp only [Civilization.hostile_interaction, Civilization.add_to_history]
    rw [if_pos hgt]
    split_ifs with h100 hemp
    · refine ⟨by simp [dictGet_dictSet_self], ?_⟩
      intro hbig
      rw [dictGet_dictSet_self] at h100
      simp only [Option.getD_some] at h100
      linarith
    · refine ⟨by simp [dictGet_dictSet_self], ?_⟩
      intro hbig
      rw [dictGet_dictSet_self] at h100
      simp only [Option.getD_some] at h100
      linarith
    · refine ⟨by simp [dictGet_dictSet_self], ?_⟩
      intro hbig
      refine ⟨by simp [dictGet_dictSet_self], ?_⟩
      simp only [dictGet_dictSet_self, Option.getD_some]
      ring
  · intro hng
    simp only [Civilization.hostile_interaction, Civilization.add_to_history]
    rw [if_neg hng]
    split_ifs with h100 hemp
    · refine ⟨by simp [dictGet_dictSet_self], ?_⟩
      intro hbig
      rw [dictGet_dictSet_self] at h100
      simp only [Option.getD_some] at h100
      linarith
    · refine ⟨by simp [dictGet_dictSet_self], ?_⟩
      intro hbig
      rw [dictGet_dictSet_self] at h100
      simp only [Option.getD_some] at h100
      linarith
    · refine ⟨by simp [dictGet_dictSet_self], ?_⟩
      intro hbig
      refine ⟨by simp [dictGet_dictSet_self], ?_⟩
      simp only [dictGet_dictSet_self, Option.getD_some]
      ring

unseal Rat.add Rat.mul Rat.inv Rat.sub Nat.gcd in
/-- C1 witness: `civA` (strength 1000) defeats `civB4` (1000 at "S",
strength 500); 500 = 50% of 1000 is transferred, the winner ends at 1500,
the loser keeps 500 > 100, and 1500 + 500 = 1000 + 1000. -/
theorem conflict_transfer_conservation_witness :
    (dictGet (Civilization.hostile_interaction 1 civA civB4 starS uniC4).1.colonies starS.id).getD 0 = 1500
    ∧ (dictGet (Civilization.hostile_interaction 1 civA civB4 starS uniC4).2.1.colonies starS.id).getD 0 = 500
    ∧ ((1500 : ℚ) + 500 = 1000 + 1000) := by
  have h := (conflict_transfer_conservation 1 civA civB4 starS uniC4
    (by decide) (by decide)).1 (by decide)
  have h2 := h.2 (by decide)
  refine ⟨?_, ?_, by decide⟩
  · rw [h.1]; decide
  · rw [h2.1]; decide

/-- C3 (amended): when a hostile interaction annihilates the loser's last
colony, the loser is removed from the Universe registry in both directions,
but only the initiating side's history receives an event: "extinction_caused"
on the initiator when it is the winner, "extinction" on the initiator when it
is the loser; the non-initiating side's history is unchanged either way. -/
theorem extinction_logging_initiator_only (current_date : ℚ) (self other : Civilization)
    (star : Star) (uni : Universe)
    (hoc : dictContains uni.civilizations other.params.id = true)
    (hsc : dictContains uni.civilizations self.params.id = true)
    (hne : self.params.id ≠ other.params.id)
    (hnd : (dictKeys uni.civilizations).Nodup) :
    ((dictGet self.colonies star.id).getD 0 * self.params.tech_level *
        self.params.aggression_factor >
        (dictGet other.colonies star.id).getD 0 * other.params.tech_level *
        other.params.aggression_factor →
      (dictGet other.colonies star.id).getD 0 -
        (dictGet other.colonies star.id).getD 0 * (1 / 2) ≤ 100 →
      dictPop other.colonies star.id = [] →
        dictGet (Civilization.hostile_interaction current_date self other star uni).2.2.civilizations
            other.params.id = none
        ∧ (Civilization.hostile_interaction current_date self other star uni).1.history.countP
            (fun e => e.event == "extinction_caused")
          = self.history.countP (fun e => e.event == "extinction_caused") + 1
        ∧ (Civilization.hostile_interaction current_date self other star uni).2.1.history
          = other.history)
    ∧ (¬ ((dictGet self.colonies star.id).getD 0 * self.params.tech_level *
        self.params.aggression_factor >
        (dictGet other.colonies star.id).getD 0 * other.params.tech_level *
        other.params.aggression_factor) →
      (dictGet self.colonies star.id).getD 0 -
        (dictGet self.colonies star.id).getD 0 * (1 / 2) ≤ 100 →
      dictPop self.colonies star.id = [] →
        dictGet (Civilization.hostile_interaction current_date self other star uni).2.2.civilizations
            self.params.id = none
        ∧ (Civilization.hostile_interaction current_date self other star uni).1.history.countP
            (fun e => e.event == "extinction")
          = self.history.countP (fun e => e.event == "extinction") + 1
        ∧ (Civilization.hostile_interaction current_date self other star uni).2.1.history
          = other.history) := by
  constructor
  · intro hgt h100 hpop
    simp only [Civilization.hostile_interaction, Civilization.add_to_history]
    rw [if_pos hgt]
    split_ifs with h1 h2
    · refine ⟨?_, ?_, ?_⟩
      · simp only [Universe.remove_civilization, Universe.add_to_history,
          dictGet_dictSet_self]
        rw [dictPop_dictSet]
        exact dictGet_dictPop_self _ hnd
      · simp [List.countP_append, List.countP_cons]
      · rfl
    · exfalso
      apply h2
      rw [dictPop_dictSet, hpop]
      rfl
    · exfalso
      apply h1
      rw [dictGet_dictSet_self]
      simpa using h100
  · intro hng h100 hpop
    simp only [Civilization.hostile_interaction, Civilization.add_to_history]
    rw [if_neg hng]
    split_ifs with h1 h2
    · obtain ⟨c, hc⟩ := dictGet_isSome_of_contains hsc
      refine ⟨?_, ?_, ?_⟩
      · simp only [Universe.remove_civilization, Universe.add_to_history,
          dictGet_dictSet_ne _ hne, hc]
        exact dictGet_dictPop_self _ (nodup_keys_dictSet _ _ _ hnd)
      · simp [List.countP_append, List.countP_cons]
      · rfl
    · exfalso
      apply h2
      rw [dictPop_dictSet, hpop]
      rfl
    · exfalso
      apply h1
      rw [dictGet_dictSet_self]
      simpa using h100

unseal Rat.add Rat.mul Rat.inv Rat.sub Nat.gcd in
/-- C3 witness: `civA` annihilates `civBext` at "S": the loser disappears
from the registry, the initiator's history gains one "extinction_caused",
and the loser's history is untouched. -/
theorem extinction_logging_initiator_only_witness :
    dictGet (Civilization.hostile_interaction 1 civA civBext starS uniExt).2.2.civilizations
        civBext.params.id = none
    ∧ (Civilization.hostile_interaction 1 civA civBext starS uniExt).1.history.countP
        (fun e => e.event == "extinction_caused")
      = civA.history.countP (fun e => e.event == "extinction_caused") + 1
    ∧ (Civilization.hostile_interaction 1 civA civBext starS uniExt).2.1.history
      = civBext.history :=
  (extinction_logging_initiator_only 1 civA civBext starS uniExt
    (by decide) (by decide) (by decide) (by decide)).1 (by decide) (by decide) (by decide)

/-- Sum of the values of the colonies produced by the population-update loop
equals the accumulated total, provided every colony's star is registered. -/
theorem update_colonies_sum (uni : Universe) (params : CivilizationParams) :
    ∀ cols : List (String × ℚ), (∀ p ∈ cols, (Universe.get_star uni p.1).isSome) →
      ((Civilization.update_colonies uni params cols).1.map (fun p => p.2)).sum
        = (Civilization.update_colonies uni params cols).2 := by
  intro cols
  induction cols with
  | nil => intro _; simp [Civilization.update_colonies]
  | cons p rest ih =>
    intro h
    obtain ⟨sid, pop⟩ := p
    cases hst : Universe.get_star uni sid with
    | none =>
      have hcontra := h (sid, pop) (by simp)
      rw [hst] at hcontra
      simp at hcontra
    | some star =>
      have hr := ih (fun q hq => h q (by simp [hq]))
      simp only [Civilization.update_colonies, hst, List.map_cons, List.sum_cons]
      rw [hr]
      ring

/-- C4 (amended): immediately after a civilization's own population-update
phase (all colony stars registered), the scalar population field equals the
sum of the colonies values; the counterexample shows the equality can fail at
other observable points once a conflict has mutated the colonies. -/
theorem population_matches_colonies_after_update (current_date : ℚ) (uni : Universe)
    (self : Civilization)
    (h : ∀ p ∈ self.colonies, (Universe.get_star uni p.1).isSome) :
    Civilization.get_total_population (Civilization.update_population self current_date uni)
      = (Civilization.update_population self current_date uni).params.population := by
  simp only [Civilization.get_total_population, Civilization.update_population]
  exact update_colonies_sum uni self.params self.colonies h

/-- C4 witness: the invariant holds for `civW` right after its population
update over `uniW`. -/
theorem population_matches_colonies_after_update_witness :
    Civilization.get_total_population (Civilization.update_population civW 1 uniW)
      = (Civilization.update_population civW 1 uniW).params.population :=
  population_matches_colonies_after_update 1 uniW civW (by decide)

unseal Rat.add Rat.mul Rat.inv Rat.sub Nat.gcd in
/-- C4 counterexample: after initiator `civA` finishes its tick update, the
other civilization "B" (read through the universe registry) holds 500 total
colony population but its scalar population field still records 1000: the
hostile interaction mutated B's colonies without updating the scalar, so the
invariant fails at an observable point. -/
theorem population_field_diverges_after_conflict :
    dictGet (Civilization.update distC rngC civA 1 uniC4 0).2.1.civilizations "B"
        = some { civB4 with colonies := [("S", 500)] }
    ∧ Civilization.get_total_population { civB4 with colonies := [("S", 500)] } = 500
    ∧ ({ civB4 with colonies := [("S", 500)] } : Civilization).params.population = 1000
    ∧ ((500 : ℚ) ≠ 1000) := by
  decide

/-- Every colony produced by the population-update loop whose star is
registered is at most the star's carrying capacity. -/
theorem update_colonies_le_cap (uni : Universe) (params : CivilizationParams) :
    ∀ cols : List (String × ℚ), ∀ p ∈ (Civilization.update_colonies uni params cols).1,
      ∀ star : Star, Universe.get_star uni p.1 = some star →
        p.2 ≤ star.resources * 1000000000 * (star.planets : ℚ) := by
  intro cols
  induction cols with
  | nil =>
    intro p hp
    simp [Civilization.update_colonies] at hp
  | cons q rest ih =>
    intro p hp star hstar
    obtain ⟨sid, pop⟩ := q
    cases hst : Universe.get_star uni sid with
    | none =>
      simp only [Civilization.update_colonies, hst, List.mem_cons] at hp
      rcases hp with hp | hp
      · subst hp
        rw [hst] at hstar
        cases hstar
      · exact ih p hp star hstar
    | some star2 =>
      simp only [Civilization.update_colonies, hst, List.mem_cons] at hp
      rcases hp with hp | hp
      · subst hp
        simp only at hstar
        rw [hst] at hstar
        injection hstar with hss
        subst hss
        split_ifs with hcap
        · exact le_refl _
        · exact le_of_not_lt hcap
      · exact ih p hp star hstar

/-- Each pre-existing colony with a registered star is mapped by the
population-update loop to its grown value clamped at the carrying capacity. -/
theorem update_colonies_formula (uni : Universe) (params : CivilizationParams) :
    ∀ (cols : List (String × ℚ)) (sid : String) (pop : ℚ) (star : Star),
      (sid, pop) ∈ cols → Universe.get_star uni sid = some star →
      (sid,
        if pop * (1 + (params.reproduction_rate - 1 / params.individual_lifespan) *
            star.resources) >
            star.resources * 1000000000 * (star.planets : ℚ)
        then star.resources * 1000000000 * (star.planets : ℚ)
        else pop * (1 + (params.reproduction_rate - 1 / params.individual_lifespan) *
            star.resources))
        ∈ (Civilization.update_colonies uni params cols).1 := by
  intro cols
  induction cols with
  | nil =>
    intro sid pop star hmem
    simp at hmem
  | cons q rest ih =>
    intro sid pop star hmem hstar
    obtain ⟨qid, qpop⟩ := q
    rcases List.mem_cons.mp hmem with hp | hp
    · injection hp with h1 h2
      subst h1
      subst h2
      simp only [Civilization.update_colonies, hstar, List.mem_cons]
      exact Or.inl trivial
    · cases hst : Universe.get_star uni qid with
      | none =>
        simp only [Civilization.update_colonies, hst, List.mem_cons]
        exact Or.inr (ih sid pop star hp hstar)
      | some star2 =>
        simp only [Civilization.update_colonies, hst, List.mem_cons]
        exact Or.inr (ih sid pop star hp hstar)

/-- C6: after the population-update phase, every colony entry whose star is
registered is at most the carrying capacity resources × 1e9 × planets of its
star, and each pre-existing colony with a registered star is updated to
exactly old × (1 + (reproduction_rate − 1/lifespan) × resources) clamped at
that capacity. -/
theorem carrying_capacity_cap (current_date : ℚ) (uni : Universe) (self : Civilization) :
    (∀ p ∈ (Civilization.update_population self current_date uni).colonies,
      ∀ star : Star, Universe.get_star uni p.1 = some star →
        p.2 ≤ star.resources * 1000000000 * (star.planets : ℚ))
    ∧ (∀ (sid : String) (pop : ℚ) (star : Star), (sid, pop) ∈ self.colonies →
        Universe.get_star uni sid = some star →
        (sid,
          if pop * (1 + (self.params.reproduction_rate - 1 / self.params.individual_lifespan) *
              star.resources) >
              star.resources * 1000000000 * (star.planets : ℚ)
          then star.resources * 1000000000 * (star.planets : ℚ)
          else pop * (1 + (self.params.reproduction_rate - 1 / self.params.individual_lifespan) *
              star.resources))
          ∈ (Civilization.update_population self current_date uni).colonies) := by
  constructor
  · intro p hp star hstar
    simp only [Civilization.update_population] at hp
    exact update_colonies_le_cap uni self.params self.colonies p hp star hstar
  · intro sid pop star hmem hstar
    simp only [Civilization.update_population]
    exact update_colonies_formula uni self.params self.colonies sid pop star hmem hstar

unseal Rat.add Rat.mul Rat.inv Rat.sub Nat.gcd in
/-- C6 witness: `civW` holds 2e9 at `starW` (resources 1, 1 planet); growth
doubles it to 4e9, which is clamped at the capacity 1e9, and 1e9 is at most
the capacity. -/
theorem carrying_capacity_cap_witness :
    ((1000000000 : ℚ) ≤ starW.resources * 1000000000 * (starW.planets : ℚ))
    ∧ ("W", (1000000000 : ℚ)) ∈ (Civilization.update_population civW 1 uniW).colonies := by
  constructor
  · exact (carrying_capacity_cap 1 uniW civW).1 ("W", 1000000000) (by decide) starW (by decide)
  · have hf := (carrying_capacity_cap 1 uniW civW).2 "W" 2000000000 starW (by decide) (by decide)
    rw [show (if (2000000000 : ℚ) * (1 + (civW.params.reproduction_rate -
          1 / civW.params.individual_lifespan) * starW.resources) >
          starW.resources * 1000000000 * (starW.planets : ℚ)
        then starW.resources * 1000000000 * (starW.planets : ℚ)
        else (2000000000 : ℚ) * (1 + (civW.params.reproduction_rate -
          1 / civW.params.individual_lifespan) * starW.resources)) = (1000000000 : ℚ)
      from by decide] at hf
    exact hf

/-- C7: when the initiator's cooperation factor exceeds its aggression factor
and both sides hold a colony at the shared star, the interaction is peaceful:
if the other side's tech level is strictly higher the initiator's tech level
immediately gains exactly (their_tech − our_tech) × our_cooperation × 0.1 and
a "tech_exchange" event recording that boost is appended to the initiator's
history (the universe, hence the other side, is untouched); if the other side
is not strictly more advanced, nothing at all changes and no event is
logged. -/
theorem tech_exchange_boost (current_date : ℚ) (self : Civilization) (oid : String)
    (star : Star) (uni : Universe) (other : Civilization)
    (hget : Universe.get_civilization uni oid = some other)
    (hoc : dictContains other.colonies star.id = true)
    (hsc : dictContains self.colonies star.id = true)
    (hco : self.params.cooperation_factor > self.params.aggression_factor) :
    (other.params.tech_level > self.params.tech_level →
      (Civilization.interact_pair current_date self oid star uni).1.params.tech_level
        = self.params.tech_level + (other.params.tech_level - self.params.tech_level) *
            self.params.cooperation_factor * (1 / 10)
      ∧ (Civilization.interact_pair current_date self oid star uni).1.history
        = self.history ++ [⟨current_date, "tech_exchange",
            [("with_civilization", EventVal.str other.params.id),
             ("at_star", EventVal.str star.id),
             ("tech_boost", EventVal.num ((other.params.tech_level -
                self.params.tech_level) * self.params.cooperation_factor * (1 / 10)))]⟩]
      ∧ (Civilization.interact_pair current_date self oid star uni).2 = uni)
    ∧ (¬ other.params.tech_level > self.params.tech_level →
      Civilization.interact_pair current_date self oid star uni = (self, uni)) := by
  have hguard : (!dictContains other.colonies star.id || !dictContains self.colonies star.id)
      = false := by
    rw [hoc, hsc]
    rfl
  constructor
  · intro htech
    simp only [Civilization.interact_pair, hget, hguard, Bool.false_eq_true, if_false,
      if_pos hco, Civilization.peaceful_interaction, if_pos htech,
      Civilization.add_to_history]
    refine ⟨?_, ?_, ?_⟩ <;> trivial
  · intro hnt
    simp only [Civilization.interact_pair, hget, hguard, Bool.false_eq_true, if_false,
      if_pos hco, Civilization.peaceful_interaction, if_neg hnt]

unseal Rat.add Rat.mul Rat.inv Rat.sub Nat.gcd in
/-- C7 witness: `civL` (cooperation 0.8, aggression 0.2, tech 1) meets the
higher-tech `civH` (tech 2) at "P" and gains exactly (2 − 1) × 0.8 × 0.1,
while the universe (hence `civH`) is unchanged. -/
theorem tech_exchange_boost_witness :
    (Civilization.interact_pair 1 civL "H" starP uniP).1.params.tech_level
      = civL.params.tech_level + (civH.params.tech_level - civL.params.tech_level) *
          civL.params.cooperation_factor * (1 / 10)
    ∧ (Civilization.interact_pair 1 civL "H" starP uniP).2 = uniP := by
  have h := (tech_exchange_boost 1 civL "H" starP uniP civH
    (by decide) (by decide) (by decide) (by decide)).1 (by decide)
  exact ⟨h.1, h.2.2⟩

/-- C10: a successful expansion whose origin star is visited but has no
`colonies` entry proceeds with origin population 0 (`colonies.get(origin, 0)`):
it creates a fresh zero-population entry at the origin star, sets the new
colony to 0, and logs the "expansion" event with colony size 0, rather than
skipping the attempt or failing. -/
theorem expansion_zero_origin_population (current_date : ℚ) (origin_star_id : String)
    (star : Star) (distance : ℚ) (self : Civilization) (uni : Universe)
    (hvis : dictContains self.visited_stars origin_star_id = true)
    (hnone : dictGet self.colonies origin_star_id = none) :
    dictGet (Civilization.apply_expansion_success current_date origin_star_id star
        distance self uni).1.colonies star.id = some 0
    ∧ dictGet (Civilization.apply_expansion_success current_date origin_star_id star
        distance self uni).1.colonies origin_star_id = some 0
    ∧ (Civilization.apply_expansion_success current_date origin_star_id star
        distance self uni).1.history
      = self.history ++ [⟨current_date, "expansion",
          [("from_star", EventVal.str origin_star_id), ("to_star", EventVal.str star.id),
           ("distance", EventVal.num distance), ("colony_size", EventVal.num 0)]⟩] := by
  refine ⟨?_, ?_, ?_⟩
  · simp [Civilization.apply_expansion_success, Civilization.add_to_history, hnone,
      dictGet_dictSet_self]
  · by_cases hid : origin_star_id = star.id
    · subst hid
      simp [Civilization.apply_expansion_success, Civilization.add_to_history, hnone,
        dictGet_dictSet_self]
    · simp [Civilization.apply_expansion_success, Civilization.add_to_history, hnone,
        dictGet_dictSet_ne _ hid, dictGet_dictSet_self]
  · simp [Civilization.apply_expansion_success, Civilization.add_to_history, hnone]

/-- C10 witness: `civTen` has "s0" in its visited map but no colony there;
expanding to `starE1` creates zero-population colonies at both stars. -/
theorem expansion_zero_origin_population_witness :
    dictGet (Civilization.apply_expansion_success 20 "s0" starE1 3 civTen uniE).1.colonies
        starE1.id = some 0
    ∧ dictGet (Civilization.apply_expansion_success 20 "s0" starE1 3 civTen uniE).1.colonies
        "s0" = some 0 :=
  have h := expansion_zero_origin_population 20 "s0" starE1 3 civTen uniE
    (by decide) (by decide)
  ⟨h.1, h.2.1⟩

/-- The success branch of an expansion attempt only inserts the new star into
the visited map. -/
theorem apply_expansion_success_visited (current_date : ℚ) (origin_star_id : String)
    (star : Star) (distance : ℚ) (self : Civilization) (uni : Universe) :
    (Civilization.apply_expansion_success current_date origin_star_id star distance
        self uni).1.visited_stars
      = dictSet self.visited_stars star.id current_date := rfl

/-- Peaceful interactions never touch the visited map. -/
theorem peaceful_interaction_visited (current_date : ℚ) (self other : Civilization)
    (star : Star) :
    (Civilization.peaceful_interaction current_date self other star).visited_stars
      = self.visited_stars := by
  simp only [Civilization.peaceful_interaction, Civilization.add_to_history]
  split_ifs <;> rfl

/-- Hostile interactions never touch the initiator's visited map. -/
theorem hostile_interaction_visited (current_date : ℚ) (self other : Civilization)
    (star : Star) (uni : Universe) :
    (Civilization.hostile_interaction current_date self other star uni).1.visited_stars
      = self.visited_stars := by
  simp only [Civilization.hostile_interaction, Civilization.add_to_history]
  split_ifs <;> rfl

/-- One interaction-dispatch step never touches the initiator's visited map. -/
theorem interact_pair_visited (current_date : ℚ) (self : Civilization) (oid : String)
    (star : Star) (uni : Universe) :
    (Civilization.interact_pair current_date self oid star uni).1.visited_stars
      = self.visited_stars := by
  cases hget : Universe.get_civilization uni oid with
  | none => simp [Civilization.interact_pair, hget]
  | some other =>
    simp only [Civilization.interact_pair, hget]
    split_ifs with h1 h2
    · rfl
    · exact peaceful_interaction_visited current_date self other star
    · exact hostile_interaction_visited current_date self other star uni

/-- The visitor loop never touches the initiator's visited map. -/
theorem interact_visitors_visited (current_date : ℚ) (star : Star) :
    ∀ (ids : List String) (self : Civilization) (uni : Universe),
      (Civilization.interact_visitors current_date star ids self uni).1.visited_stars
        = self.visited_stars := by
  intro ids
  induction ids with
  | nil => intro self uni; rfl
  | cons oid rest ih =>
    intro self uni
    simp only [Civilization.interact_visitors]
    rw [ih]
    exact interact_pair_visited current_date self oid star uni

/-- The star loop of the interaction phase never touches the visited map. -/
theorem interact_stars_visited (current_date : ℚ) :
    ∀ (ids : List String) (self : Civilization) (uni : Universe),
      (Civilization.interact_stars current_date ids self uni).1.visited_stars
        = self.visited_stars := by
  intro ids
  induction ids with
  | nil => intro self uni; rfl
  | cons sid rest ih =>
    intro self uni
    cases hst : Universe.get_star uni sid with
    | none => simp only [Civilization.interact_stars, hst]; exact ih self uni
    | some star =>
      simp only [Civilization.interact_stars, hst]
      rw [ih]
      exact interact_visitors_visited current_date star _ self uni

/-- The interaction phase never touches the visited map. -/
theorem interact_with_other_civilizations_visited (self : Civilization)
    (current_date : ℚ) (uni : Universe) :
    (Civilization.interact_with_other_civilizations self current_date uni).1.visited_stars
      = self.visited_stars :=
  interact_stars_visited current_date _ self uni

/-- Candidate loop preservation: entries of a reference map `orig` whose keys
are disjoint from the candidate ids survive the candidate loop unchanged
(inserts are appends of fresh keys, so no existing first-visit date is ever
overwritten). -/
theorem expand_candidates_preserves (dist : Pos → Pos → ℚ) (rng : ℕ → ℚ)
    (current_date : ℚ) (origin_star : Star) (origin_star_id : String) :
    ∀ (cs : List Star) (self : Civilization) (uni : Universe) (n : ℕ)
      (orig : List (String × ℚ)),
      Preserves orig self.visited_stars →
      (∀ c ∈ cs, dictContains orig c.id = false) →
      Preserves orig (Civilization.expand_candidates dist rng current_date origin_star
        origin_star_id cs self uni n).1.visited_stars := by
  intro cs
  induction cs with
  | nil =>
    intro self uni n orig hpres hcs
    exact hpres
  | cons c rest ih =>
    intro self uni n orig hpres hcs
    have hpres2 : Preserves orig
        (dictSet self.visited_stars c.id current_date) := by
      intro k v hk
      have hkc : k ≠ c.id := by
        intro hkk
        have := dictContains_of_dictGet hk
        rw [hkk, hcs c (by simp)] at this
        exact Bool.noConfusion this
      rw [dictGet_dictSet_ne _ hkc]
      exact hpres k v hk
    simp only [Civilization.expand_candidates]
    split_ifs with h1 h2 h3
    · exact ih self uni n orig hpres (fun x hx => hcs x (by simp [hx]))
    · rw [apply_expansion_success_visited]
      exact hpres2
    · exact ih _ _ _ orig hpres2 (fun x hx => hcs x (by simp [hx]))
    · exact ih _ _ _ orig hpres (fun x hx => hcs x (by simp [hx]))

/-- Origin loop preservation: existing entries of a reference map survive the
whole origin loop of the expansion phase. -/
theorem expand_origins_preserves (dist : Pos → Pos → ℚ) (rng : ℕ → ℚ)
    (current_date : ℚ) :
    ∀ (origins : List String) (self : Civilization) (uni : Universe) (n : ℕ)
      (orig : List (String × ℚ)),
      Preserves orig self.visited_stars →
      Preserves orig (Civilization.expand_origins dist rng current_date origins
        self uni n).1.visited_stars := by
  intro origins
  induction origins with
  | nil =>
    intro self uni n orig hpres
    exact hpres
  | cons oid rest ih =>
    intro self uni n orig hpres
    cases hst : Universe.get_star uni oid with
    | none =>
      simp only [Civilization.expand_origins, hst]
      exact ih self uni n orig hpres
    | some origin_star =>
      simp only [Civilization.expand_origins, hst]
      have hcs : ∀ c ∈ (Universe.get_nearby_stars dist uni origin_star.position
          (self.params.expansion_range * self.params.tech_level)).filter
            (fun s => !dictContains self.visited_stars s.id),
          dictContains orig c.id = false := by
        intro c hc
        have hflt := (List.mem_filter.mp hc).2
        cases hb : dictContains orig c.id with
        | false => rfl
        | true =>
          obtain ⟨v, hv⟩ := dictGet_isSome_of_contains hb
          have := dictContains_of_dictGet (hpres c.id v hv)
          rw [this] at hflt
          exact Bool.noConfusion hflt
      have hp2 := expand_candidates_preserves dist rng current_date origin_star oid
        _ self uni n orig hpres hcs
      split_ifs with hstop
      · exact hp2
      · exact ih _ _ _ orig hp2

/-- Phase-level preservation: every first-visit entry present at the start of
the expansion phase is still present, with the same date, afterwards. -/
theorem expand_to_new_stars_preserves (dist : Pos → Pos → ℚ) (rng : ℕ → ℚ)
    (self : Civilization) (current_date : ℚ) (uni : Universe) (n : ℕ) :
    Preserves self.visited_stars (Civilization.expand_to_new_stars dist rng self
      current_date uni n).1.visited_stars := by
  unfold Civilization.expand_to_new_stars
  split_ifs with h
  · exact fun k v hv => hv
  · exact expand_origins_preserves dist rng current_date _ self uni n
      self.visited_stars (fun k v hv => hv)

/-- C9: `Star.record_visit` is idempotent — a call for an already-recorded
civilization leaves the star completely unchanged (first visit wins) — and
over a full tick update a civilization's `visited_stars` map only grows:
every existing star id keeps its original first-visit date (expansion
candidates already visited are filtered out and never re-inserted, so no
star id is ever inserted twice). -/
theorem record_visit_idempotent_and_no_revisit :
    (∀ (star : Star) (civ_id : String) (date : ℚ),
      dictContains star.visiting_civilizations civ_id = true →
      Star.record_visit star civ_id date = star)
    ∧ (∀ (dist : Pos → Pos → ℚ) (rng : ℕ → ℚ) (self : Civilization)
        (current_date : ℚ) (uni : Universe) (n : ℕ) (k : String) (v : ℚ),
      dictGet self.visited_stars k = some v →
      dictGet (Civilization.update dist rng self current_date uni n).1.visited_stars k
        = some v) := by
  constructor
  · intro star civ_id date h
    simp [Star.record_visit, h]
  · intro dist rng self current_date uni n k v hv
    simp only [Civilization.update]
    rw [interact_with_other_civilizations_visited]
    exact expand_to_new_stars_preserves dist rng _ current_date uni n k v hv

unseal Rat.add Rat.mul Rat.inv Rat.sub Nat.gcd in
/-- C9 witness: re-recording "A" on `starS` is a no-op, and after a full tick
of `civR` (which runs an expansion phase at date 20) the original first-visit
entry for "s0" is intact. -/
theorem record_visit_idempotent_and_no_revisit_witness :
    Star.record_visit starS "A" 5 = starS
    ∧ dictGet (Civilization.update distC rngC civR 20 uniE 0).1.visited_stars "s0"
      = some 0 :=
  ⟨record_visit_idempotent_and_no_revisit.1 starS "A" 5 (by decide),
   record_visit_idempotent_and_no_revisit.2 distC rngC civR 20 uniE 0 "s0" 0 (by decide)⟩

/-- The random cursor of the candidate loop never decreases. -/
theorem expand_candidates_count_monotone (dist : Pos → Pos → ℚ) (rng : ℕ → ℚ)
    (current_date : ℚ) (origin_star : Star) (origin_star_id : String) :
    ∀ (cs : List Star) (self : Civilization) (uni : Universe) (n : ℕ),
      n ≤ (Civilization.expand_candidates dist rng current_date origin_star
        origin_star_id cs self uni n).2.2.1 := by
  intro cs
  induction cs with
  | nil => intro self uni n; exact le_refl n
  | cons c rest ih =>
    intro self uni n
    simp only [Civilization.expand_candidates]
    split_ifs with h1 h2 h3
    · exact ih self uni n
    · exact Nat.le_succ n
    · exact le_trans (Nat.le_succ n) (ih _ _ (n + 1))
    · exact le_trans (Nat.le_succ n) (ih _ _ (n + 1))

/-- The random cursor of the origin loop never decreases. -/
theorem expand_origins_count_monotone (dist : Pos → Pos → ℚ) (rng : ℕ → ℚ)
    (current_date : ℚ) :
    ∀ (origins : List String) (self : Civilization) (uni : Universe) (n : ℕ),
      n ≤ (Civilization.expand_origins dist rng current_date origins self uni n).2.2 := by
  intro origins
  induction origins with
  | nil => intro self uni n; exact le_refl n
  | cons oid rest ih =>
    intro self uni n
    cases hst : Universe.get_star uni oid with
    | none =>
      simp only [Civilization.expand_origins, hst]
      exact ih self uni n
    | some origin_star =>
      simp only [Civilization.expand_origins, hst]
      split_ifs with hstop
      · exact expand_candidates_count_monotone dist rng current_date origin_star oid
          _ self uni n
      · exact le_trans
          (expand_candidates_count_monotone dist rng current_date origin_star oid
            _ self uni n)
          (ih _ _ _)

/-- If the candidate loop consumed no random draw, it did nothing at all:
every candidate was out of range (or the list was empty). -/
theorem expand_candidates_no_draw_id (dist : Pos → Pos → ℚ) (rng : ℕ → ℚ)
    (current_date : ℚ) (origin_star : Star) (origin_star_id : String) :
    ∀ (cs : List Star) (self : Civilization) (uni : Universe) (n : ℕ),
      (Civilization.expand_candidates dist rng current_date origin_star
        origin_star_id cs self uni n).2.2.1 = n →
      Civilization.expand_candidates dist rng current_date origin_star
        origin_star_id cs self uni n = (self, uni, n, false) := by
  intro cs
  induction cs with
  | nil => intro self uni n _; rfl
  | cons c rest ih =>
    intro self uni n hn
    simp only [Civilization.expand_candidates] at hn ⊢
    split_ifs at hn ⊢ with h1 h2 h3
    · exact ih self uni n hn
    · exact absurd (hn : n + 1 = n) (Nat.succ_ne_self n)
    · have hmono := expand_candidates_count_monotone dist rng current_date origin_star
        origin_star_id rest
        (Civilization.apply_expansion_success current_date origin_star_id c
          (Star.distance_to dist origin_star c) self uni).1
        (Civilization.apply_expansion_success current_date origin_star_id c
          (Star.distance_to dist origin_star c) self uni).2
        (n + 1)
      have hle : n + 1 ≤ n := le_trans hmono (le_of_eq hn)
      omega
    · have hmono := expand_candidates_count_monotone dist rng current_date origin_star
        origin_star_id rest self uni (n + 1)
      have hle : n + 1 ≤ n := le_trans hmono (le_of_eq hn)
      omega

/-- A candidate list whose head is within range always consumes at least one
random draw: the head's expansion attempt is evaluated. -/
theorem expand_candidates_head_in_range (dist : Pos → Pos → ℚ) (rng : ℕ → ℚ)
    (current_date : ℚ) (origin_star : Star) (origin_star_id : String)
    (c : Star) (cs : List Star) (self : Civilization) (uni : Universe) (n : ℕ)
    (hin : ¬ (Star.distance_to dist origin_star c >
      self.params.expansion_range * self.params.tech_level)) :
    n + 1 ≤ (Civilization.expand_candidates dist rng current_date origin_star
      origin_star_id (c :: cs) self uni n).2.2.1 := by
  simp only [Civilization.expand_candidates]
  rw [if_neg hin]
  split_ifs with h2 h3
  · exact le_refl (n + 1)
  · exact expand_candidates_count_monotone dist rng current_date origin_star
      origin_star_id cs _ _ (n + 1)
  · exact expand_candidates_count_monotone dist rng current_date origin_star
      origin_star_id cs self uni (n + 1)

/-- If some origin in the list resolves to a registered star with a nearby
unvisited candidate, the origin loop consumes at least one random draw. -/
theorem expand_origins_attempt (dist : Pos → Pos → ℚ) (rng : ℕ → ℚ)
    (current_date : ℚ) (hsymm : ∀ a b, dist a b = dist b a) :
    ∀ (origins : List String) (self : Civilization) (uni : Universe) (n : ℕ),
      (∃ oid ∈ origins, ∃ origin_star, Universe.get_star uni oid = some origin_star ∧
        ∃ s ∈ Universe.get_nearby_stars dist uni origin_star.position
            (self.params.expansion_range * self.params.tech_level),
          dictContains self.visited_stars s.id = false) →
      n + 1 ≤ (Civilization.expand_origins dist rng current_date origins self uni n).2.2 := by
  intro origins
  induction origins with
  | nil =>
    rintro self uni n ⟨oid, hmem, -⟩
    simp at hmem
  | cons o rest ih =>
    rintro self uni n ⟨oid, hmem, origin_star, horig, s, hs, hnv⟩
    cases hsto : Universe.get_star uni o with
    | none =>
      simp only [Civilization.expand_origins, hsto]
      rcases List.mem_cons.mp hmem with rfl | hmem2
      · rw [horig] at hsto
        cases hsto
      · exact ih self uni n ⟨oid, hmem2, origin_star, horig, s, hs, hnv⟩
    | some o_star =>
      simp only [Civilization.expand_origins, hsto]
      split_ifs with hstop
      · by_cases hn : (Civilization.expand_candidates dist rng current_date o_star o
            ((Universe.get_nearby_stars dist uni o_star.position
              (self.params.expansion_range * self.params.tech_level)).filter
                (fun s2 => !dictContains self.visited_stars s2.id)) self uni n).2.2.1 = n
        · have hid := expand_candidates_no_draw_id dist rng current_date o_star o
            _ self uni n hn
          rw [hid] at hstop
          simp at hstop
        · have hmono := expand_candidates_count_monotone dist rng current_date o_star o
            ((Universe.get_nearby_stars dist uni o_star.position
              (self.params.expansion_range * self.params.tech_level)).filter
                (fun s2 => !dictContains self.visited_stars s2.id)) self uni n
          have hout : n + 1 ≤ (Civilization.expand_candidates dist rng current_date o_star o
              ((Universe.get_nearby_stars dist uni o_star.position
                (self.params.expansion_range * self.params.tech_level)).filter
                  (fun s2 => !dictContains self.visited_stars s2.id)) self uni n).2.2.1 := by
            omega
          exact hout
      · by_cases hn : (Civilization.expand_candidates dist rng current_date o_star o
            ((Universe.get_nearby_stars dist uni o_star.position
              (self.params.expansion_range * self.params.tech_level)).filter
                (fun s2 => !dictContains self.visited_stars s2.id)) self uni n).2.2.1 = n
        · have hid := expand_candidates_no_draw_id dist rng current_date o_star o
            _ self uni n hn
          rw [hid]
          rcases List.mem_cons.mp hmem with rfl | hmem2
          · rw [horig] at hsto
            injection hsto with he
            subst he
            have hsf : s ∈ (Universe.get_nearby_stars dist uni origin_star.position
                (self.params.expansion_range * self.params.tech_level)).filter
                  (fun s2 => !dictContains self.visited_stars s2.id) := by
              apply List.mem_filter.mpr
              refine ⟨hs, ?_⟩
              rw [hnv]
              rfl
            cases hcs : (Universe.get_nearby_stars dist uni origin_star.position
                (self.params.expansion_range * self.params.tech_level)).filter
                  (fun s2 => !dictContains self.visited_stars s2.id) with
            | nil =>
              rw [hcs] at hsf
              simp at hsf
            | cons c ctail =>
              have hc_nb : c ∈ Universe.get_nearby_stars dist uni origin_star.position
                  (self.params.expansion_range * self.params.tech_level) :=
                List.mem_of_mem_filter (by rw [hcs]; exact List.mem_cons_self c ctail)
              have hpred := (List.mem_filter.mp hc_nb).2
              simp only [Bool.and_eq_true, decide_eq_true_eq] at hpred
              have hle : dist c.position origin_star.position ≤
                  self.params.expansion_range * self.params.tech_level := hpred.1
              have hinr : ¬ (Star.distance_to dist origin_star c >
                  self.params.expansion_range * self.params.tech_level) := by
                rw [Star.distance_to, hsymm]
                exact not_lt.mpr hle
              have hhead := expand_candidates_head_in_range dist rng current_date
                origin_star oid c ctail self uni n hinr
              rw [← hcs, hn] at hhead
              omega
          · exact ih self uni n ⟨oid, hmem2, origin_star, horig, s, hs, hnv⟩
        · have hmono := expand_candidates_count_monotone dist rng current_date o_star o
            ((Universe.get_nearby_stars dist uni o_star.position
              (self.params.expansion_range * self.params.tech_level)).filter
                (fun s2 => !dictContains self.visited_stars s2.id)) self uni n
          have hmono2 := expand_origins_count_monotone dist rng current_date rest
            ((Civilization.expand_candidates dist rng current_date o_star o
              ((Universe.get_nearby_stars dist uni o_star.position
                (self.params.expansion_range * self.params.tech_level)).filter
                  (fun s2 => !dictContains self.visited_stars s2.id)) self uni n).1)
            ((Civilization.expand_candidates dist rng current_date o_star o
              ((Universe.get_nearby_stars dist uni o_star.position
                (self.params.expansion_range * self.params.tech_level)).filter
                  (fun s2 => !dictContains self.visited_stars s2.id)) self uni n).2.1)
            ((Civilization.expand_candidates dist rng current_date o_star o
              ((Universe.get_nearby_stars dist uni o_star.position
                (self.params.expansion_range * self.params.tech_level)).filter
                  (fun s2 => !dictContains self.visited_stars s2.id)) self uni n).2.2.1)
          omega

/-- C8: the expansion phase performs zero expansion attempts (it is the
identity, consuming no random draw) on any tick with
current_date − founding_date < 10; and on any tick at or past that threshold
at least one expansion attempt is evaluated (at least one random draw is
consumed) whenever some visited star resolves to a registered star with an
unvisited candidate within expansion_range × tech_level. -/
theorem expansion_establishment_gate :
    (∀ (dist : Pos → Pos → ℚ) (rng : ℕ → ℚ) (self : Civilization) (current_date : ℚ)
        (uni : Universe) (n : ℕ),
      current_date - self.params.founding_date < 10 →
      Civilization.expand_to_new_stars dist rng self current_date uni n = (self, uni, n))
    ∧ (∀ (dist : Pos → Pos → ℚ) (rng : ℕ → ℚ) (self : Civilization) (current_date : ℚ)
        (uni : Universe) (n : ℕ),
      (∀ a b, dist a b = dist b a) →
      10 ≤ current_date - self.params.founding_date →
      ∀ oid ∈ self.visited_stars.map (fun p => p.1),
      ∀ origin_star, Universe.get_star uni oid = some origin_star →
      ∀ s ∈ Universe.get_nearby_stars dist uni origin_star.position
          (self.params.expansion_range * self.params.tech_level),
        dictContains self.visited_stars s.id = false →
        n + 1 ≤ (Civilization.expand_to_new_stars dist rng self current_date uni n).2.2) := by
  constructor
  · intro dist rng self current_date uni n h
    simp [Civilization.expand_to_new_stars, h]
  · intro dist rng self current_date uni n hsymm h10 oid hmem origin_star horig s hs hnv
    unfold Civilization.expand_to_new_stars
    rw [if_neg (not_lt.mpr h10)]
    exact expand_origins_attempt dist rng current_date hsymm _ self uni n
      ⟨oid, hmem, origin_star, horig, s, hs, hnv⟩

unseal Rat.add Rat.mul Rat.inv Rat.sub Nat.gcd in
/-- C8 witness: the freshly founded `civA` (date 1 < founding + 10) performs
zero attempts and nothing changes; the established `civR` at date 20, with
the unvisited `starE1` within its effective range 5 of the visited `starE0`,
evaluates at least one attempt (one random draw is consumed). -/
theorem expansion_establishment_gate_witness :
    Civilization.expand_to_new_stars distC rngC civA 1 uniC4 0 = (civA, uniC4, 0)
    ∧ 1 ≤ (Civilization.expand_to_new_stars distC rngC civR 20 uniE 0).2.2 := by
  constructor
  · exact expansion_establishment_gate.1 distC rngC civA 1 uniC4 0 (by decide)
  · exact expansion_establishment_gate.2 distC rngC civR 20 uniE 0 (fun a b => rfl)
      (by decide) "s0" (by decide) starE0 (by decide) starE1 (by decide) (by decide)

end ABM
